import Mathlib

/-
Verification of the notification-delivery system against its specification.
Shallow embedding of the relevant Go code and SQL:
  - the `notifications` table (scripts/postgres-schema.sql) as a list of rows,
  - PostgresRepository.ClaimBatch / BatchInsert / BatchUpdateStatus /
    ReclaimStaleTasks as pure table transformers,
  - Consumer.Consume's per-message parsing and per-row flush,
  - models.GetPriorityForEventType,
  - SSEManager (AddConnection / Send) and the stream route handler.
Timestamps are modelled as Int, uuids as Nat, statuses and priorities as the
String values the code stores ("not_pushed", "claimed", "pushed", "failed";
"HIGH", "MEDIUM", "LOW").  JSON payloads are modelled as their serialized
string form (the only operation the code performs on them is copying).
-/

namespace NotifSys

/-- One row of the `notifications` table, fields as declared in
scripts/postgres-schema.sql. -/
structure NotificationRow where
  notification_id : Nat
  user_id : String
  event_type : String
  priority : String
  payload : String
  status : String
  event_timestamp : Int
  notification_received_timestamp : Int
  created_at : Int
  delivered_at : Option Int := none
  is_read : Bool := false
  retry_count : Nat := 0
  error_message : Option String := none
  lease_timeout : Option Int := none
  instance_id : Option String := none
deriving Repr, DecidableEq

/-- The claimed-row projection returned by ClaimBatch
(struct NotificationBatch in the Go source). -/
structure NotificationBatch where
  NotificationID : Nat
  UserID : String
  EventType : String
  Priority : String
  EventTimestamp : Int
  NotificationReceivedTimestamp : Int
  Payload : String
deriving Repr, DecidableEq

/-- Projection of a row to the claimed-batch record (the RETURNING list of the
ClaimBatch SQL). -/
def toBatchRow (r : NotificationRow) : NotificationBatch :=
  { NotificationID := r.notification_id
    UserID := r.user_id
    EventType := r.event_type
    Priority := r.priority
    EventTimestamp := r.event_timestamp
    NotificationReceivedTimestamp := r.notification_received_timestamp
    Payload := r.payload }

/-- Lexicographic (byte-wise) order on character lists: the order a SQL
VARCHAR column is sorted by for ASCII values. -/
def charListLt : List Char → List Char → Bool
  | [], [] => false
  | [], _ :: _ => true
  | _ :: _, [] => false
  | c :: cs, d :: ds =>
    if c.val < d.val then true
    else if d.val < c.val then false
    else charListLt cs ds

/-- Lexicographic order on strings (SQL VARCHAR comparison for ASCII data). -/
def strLtB (a b : String) : Bool := charListLt a.toList b.toList

/-- Insert an element into a list sorted by `le` (used to model SQL ORDER BY). -/
def insertSorted (le : α → α → Bool) (x : α) : List α → List α
  | [] => [x]
  | y :: ys => if le x y then x :: y :: ys else y :: insertSorted le x ys

/-- Stable insertion sort by `le` (used to model SQL ORDER BY). -/
def sortByKey (le : α → α → Bool) : List α → List α
  | [] => []
  | x :: xs => insertSorted le x (sortByKey le xs)

/-- The ORDER BY of the ClaimBatch SQL: `priority DESC, created_at ASC`.
`priority` is a VARCHAR(10) column, so DESC is descending lexicographic
string order. -/
def claimBefore (a b : NotificationRow) : Bool :=
  if a.priority = b.priority then decide (a.created_at ≤ b.created_at)
  else strLtB b.priority a.priority

/-- PostgresRepository.ClaimBatch: select up to `batchSize` rows with
`status = 'not_pushed'` ordered by `priority DESC, created_at ASC`, set them
to `claimed` with the instance id and lease timeout, and return their
projection together with the updated table. -/
def ClaimBatch (tbl : List NotificationRow) (instanceID : String)
    (batchSize : Nat) (leaseTimeout : Int) :
    List NotificationBatch × List NotificationRow :=
  let selected :=
    (sortByKey claimBefore (tbl.filter fun r => r.status = "not_pushed")).take batchSize
  let ids := selected.map (·.notification_id)
  let tbl' := tbl.map fun r =>
    if ids.contains r.notification_id then
      { r with status := "claimed"
               instance_id := some instanceID
               lease_timeout := some leaseTimeout }
    else r
  (selected.map toBatchRow, tbl')

/-- A LOW-priority pending row created at time `i` (S2 scenario material). -/
def lowRow (i : Nat) : NotificationRow :=
  { notification_id := i
    user_id := "u1"
    event_type := "follower.new"
    priority := "LOW"
    payload := "p"
    status := "not_pushed"
    event_timestamp := i
    notification_received_timestamp := i
    created_at := i }

/-- The HIGH-priority pending row created after the LOW rows (S2 scenario). -/
def highRow : NotificationRow :=
  { notification_id := 100
    user_id := "u1"
    event_type := "job.new"
    priority := "HIGH"
    payload := "p"
    status := "not_pushed"
    event_timestamp := 100
    notification_received_timestamp := 100
    created_at := 100 }

/-- The S2 store state: 100 LOW pending rows, then one HIGH row created later. -/
def s2Table : List NotificationRow := (List.range 100).map lowRow ++ [highRow]

/-- Modelled from the spec and DISTRIBUTED_PROCESSING_DESIGN.md: the terminal
failure threshold (`MAX_RETRIES`, "Max 3 retry attempts").  The Postgres code
itself declares no such constant. -/
def MAX_RETRIES : Nat := 3

/-- Whether the ReclaimStaleTasks WHERE clause selects a row:
`status = 'claimed' AND lease_timeout < NOW()` (a NULL `lease_timeout`
compares as false in SQL). -/
def leaseExpired (now : Int) (r : NotificationRow) : Bool :=
  r.status = "claimed" &&
    match r.lease_timeout with
    | some t => decide (t < now)
    | none => false

/-- PostgresRepository.ReclaimStaleTasks: every `claimed` row whose lease has
expired is set back to `not_pushed` with owner and lease cleared and
`retry_count` incremented; returns the updated table and the affected count. -/
def ReclaimStaleTasks (now : Int) (tbl : List NotificationRow) :
    List NotificationRow × Nat :=
  let tbl' := tbl.map fun r =>
    if leaseExpired now r then
      { r with status := "not_pushed"
               instance_id := none
               lease_timeout := none
               retry_count := r.retry_count + 1 }
    else r
  (tbl', (tbl.filter (leaseExpired now)).length)

/-- A status update flowing from a delivery worker to the status flusher
(struct StatusUpdate in the Go source). -/
structure StatusUpdate where
  NotificationID : Nat
  Status : String
  ErrorMsg : String
deriving Repr, DecidableEq

/-- One execution of the prepared UPDATE in BatchUpdateStatus: for the row
with the given id, set `status`, set `delivered_at = NOW()` when the new
status is `pushed`, record the error message, and clear `instance_id` and
`lease_timeout`.  The WHERE clause is `notification_id = $3` only. -/
def applyStatusUpdate (now : Int) (tbl : List NotificationRow)
    (u : StatusUpdate) : List NotificationRow :=
  tbl.map fun r =>
    if r.notification_id = u.NotificationID then
      { r with status := u.Status
               delivered_at := if u.Status = "pushed" then some now else r.delivered_at
               error_message := some u.ErrorMsg
               instance_id := none
               lease_timeout := none }
    else r

/-- PostgresRepository.BatchUpdateStatus: apply each update in order inside
one transaction. -/
def BatchUpdateStatus (now : Int) (tbl : List NotificationRow)
    (updates : List StatusUpdate) : List NotificationRow :=
  updates.foldl (applyStatusUpdate now) tbl

/-- models.GetPriorityForEventType: the event-type → priority table. -/
def GetPriorityForEventType (eventType : String) : String :=
  if eventType = "job.new" then "HIGH"
  else if eventType = "job.update" then "HIGH"
  else if eventType = "job.application_status" then "HIGH"
  else if eventType = "connection.request" then "MEDIUM"
  else if eventType = "connection.accepted" then "MEDIUM"
  else if eventType = "job.application_viewed" then "MEDIUM"
  else if eventType = "follower.new" then "LOW"
  else if eventType = "follower.content_liked" then "LOW"
  else if eventType = "follower.content_commented" then "LOW"
  else if eventType = "connection.endorsed" then "LOW"
  else "MEDIUM"

/-- A log-bus message (struct KafkaMessage in the Go source; metadata fields
omitted as the consumer never reads them, payload as its serialized form). -/
structure KafkaMessage where
  EventID : String
  EventType : String
  Priority : String
  UserID : String
  EventTimestamp : Int
  Payload : String
deriving Repr, DecidableEq

/-- The per-message step of Consumer.Consume: parse a log-bus message into a
notification row with a fresh id, `status = "not_pushed"`, `received = now`,
and — exactly as the Go code does — the priority copied verbatim from the
message's Priority field. -/
def consumeMessage (newID : Nat) (now : Int) (msg : KafkaMessage) :
    NotificationRow :=
  { notification_id := newID
    user_id := msg.UserID
    event_type := msg.EventType
    priority := msg.Priority
    payload := msg.Payload
    status := "not_pushed"
    event_timestamp := msg.EventTimestamp
    notification_received_timestamp := now
    created_at := now
    is_read := false
    retry_count := 0 }

/-- Whether the table already holds a row with this primary key. -/
def hasId (tbl : List NotificationRow) (i : Nat) : Bool :=
  tbl.any fun r => r.notification_id = i

/-- The status default applied inside BatchInsert: an empty status is stored
as `not_pushed`. -/
def normalizeStatus (n : NotificationRow) : NotificationRow :=
  { n with status := if n.status = "" then "not_pushed" else n.status }

/-- One INSERT of the prepared statement in BatchInsert: fails (primary-key
violation) when the id already exists, else appends the row. -/
def insertNotificationRow (tbl : List NotificationRow) (n : NotificationRow) :
    Option (List NotificationRow) :=
  if hasId tbl n.notification_id then none
  else some (tbl ++ [normalizeStatus n])

/-- PostgresRepository.BatchInsert: insert the rows one by one inside a single
transaction; the first failing insert aborts and rolls the whole batch back
(`none`). -/
def BatchInsert (tbl : List NotificationRow) :
    List NotificationRow → Option (List NotificationRow)
  | [] => some tbl
  | n :: ns =>
    match insertNotificationRow tbl n with
    | none => none
    | some tbl' => BatchInsert tbl' ns

/-- The flush step of Consumer.Consume: each buffered notification is written
with its own call to Insert (a one-row BatchInsert, hence its own
transaction); a failing row is logged (second component) and skipped while
the remaining rows proceed. -/
def flushBatch (tbl : List NotificationRow) :
    List NotificationRow → List NotificationRow × List Nat
  | [] => (tbl, [])
  | n :: ns =>
    match BatchInsert tbl [n] with
    | some tbl' => flushBatch tbl' ns
    | none =>
      let res := flushBatch tbl ns
      (res.1, n.notification_id :: res.2)

/-- The fixed capacity of a sink's outbound channel
(`make(chan []byte, 100)` in AddConnection). -/
def sseQueueCapacity : Nat := 100

/-- One SSE client connection (struct SSEConnection in the Go source); the
channel is modelled as the list of frames it currently buffers. -/
structure SSEConnection where
  userID : String
  clientQueue : List String := []
deriving Repr, DecidableEq

/-- The SSE manager state (struct SSEManager): the user → connections map as
an association list, plus the connection cap. -/
structure SSEManager where
  connections : List (String × List SSEConnection)
  maxConns : Nat
deriving Repr, DecidableEq

/-- Go map read `m.connections[userID]`: the user's connection slice, empty
when the key is absent. -/
def lookupConns : List (String × List SSEConnection) → String → List SSEConnection
  | [], _ => []
  | p :: ps, uid => if p.1 = uid then p.2 else lookupConns ps uid

/-- Go map write `m.connections[userID] = append(m.connections[userID], c)`. -/
def addToUserConns : List (String × List SSEConnection) → String → SSEConnection →
    List (String × List SSEConnection)
  | [], uid, c => [(uid, [c])]
  | p :: ps, uid, c =>
    if p.1 = uid then (p.1, p.2 ++ [c]) :: ps else p :: addToUserConns ps uid c

/-- The total connection count (the loop summing `len(conns)` over the map in
AddConnection and GetActiveConnections). -/
def totalConnections : List (String × List SSEConnection) → Nat
  | [] => 0
  | p :: ps => p.2.length + totalConnections ps

/-- SSEManager.AddConnection: refuse with `max connections reached: <cap>`
when the total count has reached the cap, else register a fresh connection
with an empty 100-frame queue. -/
def AddConnection (m : SSEManager) (userID : String) :
    Except String (SSEConnection × SSEManager) :=
  if m.maxConns ≤ totalConnections m.connections then
    .error ("max connections reached: " ++ toString m.maxConns)
  else
    let conn : SSEConnection := { userID := userID }
    .ok (conn, { m with connections := addToUserConns m.connections userID conn })

/-- The SSE frame built by Send (`event: notification` + serialized data). -/
def sseFrame (jsonData : String) : String :=
  "event: notification\ndata: " ++ jsonData ++ "\n\n"

/-- The non-blocking channel offer in Send's select/default: a full queue
drops the frame (with a warning log), a non-full queue appends it. -/
def offerFrame (c : SSEConnection) (frame : String) : SSEConnection :=
  if c.clientQueue.length < sseQueueCapacity then
    { c with clientQueue := c.clientQueue ++ [frame] }
  else c

/-- SSEManager.Send: error `no active connections for user: <id>` when the
user has no registered connections; otherwise offer the frame to each of the
user's queues without blocking and return success. -/
def Send (m : SSEManager) (userID : String) (jsonData : String) :
    Except String SSEManager :=
  if lookupConns m.connections userID = [] then
    .error ("no active connections for user: " ++ userID)
  else
    .ok { m with connections := m.connections.map fun p =>
            if p.1 = userID then
              (p.1, p.2.map fun c => offerFrame c (sseFrame jsonData))
            else p }

/-- The possible outcomes of GET /notifications/stream (setupRouter plus
SSEManager.StreamToClient up to the point the stream is established). -/
inductive StreamResponse where
  | badRequest (body : String)
  | serviceUnavailable (body : String)
  | streamOpened
deriving Repr, DecidableEq

/-- The stream route handler: 400 when the `user_id` query parameter is
missing (gin's c.Query returns "" then), 503 with AddConnection's error when
the cap is reached, else the stream is opened on the updated manager. -/
def handleStream (m : SSEManager) (userIDQuery : String) :
    StreamResponse × SSEManager :=
  if userIDQuery = "" then (.badRequest "user_id is required", m)
  else
    match AddConnection m userIDQuery with
    | .error e => (.serviceUnavailable e, m)
    | .ok (_, m') => (.streamOpened, m')

/-- A claimed row whose lease has expired and whose retry budget is already
exhausted (`retry_count = MAX_RETRIES`). -/
def c2Row : NotificationRow :=
  { notification_id := 1
    user_id := "u1"
    event_type := "job.new"
    priority := "HIGH"
    payload := "p"
    status := "claimed"
    event_timestamp := 0
    notification_received_timestamp := 0
    created_at := 0
    retry_count := 3
    lease_timeout := some 10
    instance_id := some "inst-A" }

/-- A pending row (not claimed by anyone). -/
def c3Row : NotificationRow :=
  { notification_id := 1
    user_id := "u1"
    event_type := "job.new"
    priority := "HIGH"
    payload := "p"
    status := "not_pushed"
    event_timestamp := 0
    notification_received_timestamp := 0
    created_at := 0 }

/-- A claimed row with retry_count 0, owned by inst-A. -/
def c4Row : NotificationRow :=
  { notification_id := 2
    user_id := "u1"
    event_type := "job.new"
    priority := "HIGH"
    payload := "p"
    status := "claimed"
    event_timestamp := 0
    notification_received_timestamp := 0
    created_at := 0
    retry_count := 0
    lease_timeout := some 10
    instance_id := some "inst-A" }

/-- A log-bus message whose priority field disagrees with the glossary
mapping of its event_type. -/
def c5Msg : KafkaMessage :=
  { EventID := "e1"
    EventType := "job.new"
    Priority := "LOW"
    UserID := "u1"
    EventTimestamp := 0
    Payload := "p" }

/-- A producer-built message: priority computed by the glossary mapping. -/
def c5GoodMsg : KafkaMessage :=
  { EventID := "e2"
    EventType := "connection.request"
    Priority := "MEDIUM"
    UserID := "u2"
    EventTimestamp := 5
    Payload := "p" }

/-- A registry at its cap: one user with one connection, cap 1. -/
def c9Mgr : SSEManager :=
  { connections := [("a", [{ userID := "a" }])], maxConns := 1 }

/-- A sink whose 100-frame queue is completely full. -/
def c8FullConn : SSEConnection :=
  { userID := "u1", clientQueue := List.replicate 100 "f" }

/-- A registry holding one user whose only sink is full. -/
def c8Mgr : SSEManager :=
  { connections := [("u1", [c8FullConn])], maxConns := 1000 }

/-- A registry with one user holding one empty-queue sink. -/
def w8Mgr : SSEManager :=
  { connections := [("u1", [{ userID := "u1" }])], maxConns := 1000 }

/-- The registry after Send w8Mgr "u1" "d": the frame was enqueued. -/
def w8Mgr' : SSEManager :=
  { connections := [("u1", [{ userID := "u1", clientQueue := [sseFrame "d"] }])],
    maxConns := 1000 }

/-- A row already persisted in the store. -/
def w6Old : NotificationRow :=
  { notification_id := 1
    user_id := "u1"
    event_type := "job.new"
    priority := "HIGH"
    payload := "p"
    status := "pushed"
    event_timestamp := 0
    notification_received_timestamp := 0
    created_at := 0 }

/-- A buffered row whose id collides with the persisted one. -/
def w6Bad : NotificationRow :=
  { notification_id := 1
    user_id := "u2"
    event_type := "job.update"
    priority := "HIGH"
    payload := "q"
    status := "not_pushed"
    event_timestamp := 1
    notification_received_timestamp := 1
    created_at := 1 }

/-- A buffered row with a fresh id, flushed after the bad one. -/
def w6Good : NotificationRow :=
  { notification_id := 2
    user_id := "u3"
    event_type := "follower.new"
    priority := "LOW"
    payload := "r"
    status := "not_pushed"
    event_timestamp := 2
    notification_received_timestamp := 2
    created_at := 2 }

/-- A claimed row owned by inst-A with an active lease. -/
def w10Row : NotificationRow :=
  { notification_id := 9
    user_id := "u1"
    event_type := "job.new"
    priority := "HIGH"
    payload := "p"
    status := "claimed"
    event_timestamp := 0
    notification_received_timestamp := 0
    created_at := 0
    lease_timeout := some 10
    instance_id := some "inst-A" }

/-- A failed-status update for that row. -/
def w10Upd : StatusUpdate := { NotificationID := 9, Status := "failed", ErrorMsg := "x" }

/-- The row after the failed update: owner and lease cleared. -/
def w10Res : NotificationRow :=
  { w10Row with status := "failed"
                error_message := some "x"
                instance_id := none
                lease_timeout := none }

/-- C1. The claim says ClaimBatch selects pending rows with all HIGH rows
before MEDIUM and all MEDIUM before LOW, and that on a store of 100 LOW rows
plus one later HIGH row a batch of 10 starts with the HIGH row.  The code
orders by `priority DESC` on a VARCHAR column, and in lexicographic string
order MEDIUM > LOW > HIGH, so the LOW rows come first: evaluating the
embedded ClaimBatch on exactly that store, the first batch is ten LOW rows
and the pending HIGH row is not in it. -/
theorem claimBatch_s2_first_batch_all_low :
    ((ClaimBatch s2Table "inst-1" 10 1000).1.map (·.Priority)) =
        List.replicate 10 "LOW" ∧
      highRow ∈ s2Table ∧ highRow.priority = "HIGH" ∧
      highRow.status = "not_pushed" := by decide

/-- C2. The claim says a reclaimed row whose incremented retry_count would
exceed MAX_RETRIES (3) is moved to `failed` with last_error "retry cap".
The code's ReclaimStaleTasks has no retry-cap branch at all: evaluating it on
a claimed, lease-expired row with retry_count = 3 yields status `not_pushed`
with retry_count = 4 > MAX_RETRIES and no error message, violating invariant
I5. -/
theorem reclaim_has_no_retry_cap :
    ((ReclaimStaleTasks 100 [c2Row]).1.map fun r =>
        (r.status, r.retry_count, r.error_message)) =
      [("not_pushed", 4, none)] ∧ MAX_RETRIES < 4 := by decide

/-- C3. The claim says each update of UpdateStatusBatch applies only to a row
currently in `claimed`, leaving pending/pushed/failed rows unchanged.  The
code's UPDATE has `WHERE notification_id = $3` with no status condition:
evaluating it on a `not_pushed` (pending) row moves that row to `pushed`. -/
theorem batchUpdateStatus_ignores_current_status :
    c3Row.status = "not_pushed" ∧
      ((BatchUpdateStatus 50 [c3Row]
          [{ NotificationID := 1, Status := "pushed", ErrorMsg := "" }]).map
        (·.status)) = ["pushed"] := by decide

/-- C4. The claim says an update with new_status = failed increments the
row's retry_count and records last_error.  The code's UPDATE records the
error message but never touches retry_count: evaluating it on a claimed row
with retry_count 0 and the update (2, failed, "boom") leaves retry_count at
0. -/
theorem batchUpdateStatus_failed_does_not_increment_retry :
    c4Row.retry_count = 0 ∧
      ((BatchUpdateStatus 50 [c4Row]
          [{ NotificationID := 2, Status := "failed", ErrorMsg := "boom" }]).map
        fun r => (r.status, r.retry_count, r.error_message)) =
      [("failed", 0, some "boom")] := by decide

/-- C5 counterexample.  The claim says the persisted priority always equals
the glossary mapping applied to the message's event_type.  The consumer
copies the message's Priority field verbatim and never calls
GetPriorityForEventType: a message with event_type job.new but priority LOW
is persisted with priority LOW, while the mapping gives HIGH. -/
theorem consume_priority_not_derived :
    (consumeMessage 1 0 c5Msg).priority = "LOW" ∧
      GetPriorityForEventType c5Msg.EventType = "HIGH" ∧
      (consumeMessage 1 0 c5Msg).priority ≠
        GetPriorityForEventType c5Msg.EventType := by decide

/-- C5 amended.  The Ingestor persists the message's own priority field
verbatim; the glossary mapping is applied by the producers when they build
the message, so whenever a message carries `priority =
GetPriorityForEventType event_type` (as every producer in this repository
does) the persisted priority equals the mapped one.  The mapping itself only
ever yields HIGH, MEDIUM or LOW. -/
theorem consume_priority_copied_from_message (newID : Nat) (now : Int)
    (msg : KafkaMessage)
    (h : msg.Priority = GetPriorityForEventType msg.EventType) :
    (consumeMessage newID now msg).priority = msg.Priority ∧
      (consumeMessage newID now msg).priority =
        GetPriorityForEventType msg.EventType ∧
      ∀ e : String, GetPriorityForEventType e = "HIGH" ∨
        GetPriorityForEventType e = "MEDIUM" ∨
        GetPriorityForEventType e = "LOW" := by
  refine ⟨rfl, h, fun e => ?_⟩
  unfold GetPriorityForEventType
  split_ifs <;> simp

/-- C5 witness: the amended theorem applied to a concrete producer-built
message. -/
theorem consume_priority_copied_witness :
    c5GoodMsg.Priority = GetPriorityForEventType c5GoodMsg.EventType ∧
      (consumeMessage 7 3 c5GoodMsg).priority =
        GetPriorityForEventType c5GoodMsg.EventType :=
  ⟨by decide, (consume_priority_copied_from_message 7 3 c5GoodMsg (by decide)).2.1⟩

/-- Looking a user up after registering a connection: the registering user's
slice gains the connection at the end, every other user's slice is
unchanged. -/
theorem lookup_addToUserConns (l : List (String × List SSEConnection))
    (uid : String) (c : SSEConnection) (u : String) :
    lookupConns (addToUserConns l uid c) u =
      if u = uid then lookupConns l u ++ [c] else lookupConns l u := by
  induction l with
  | nil =>
    by_cases hu : u = uid
    · subst hu
      simp [addToUserConns, lookupConns]
    · have h2 : ¬ uid = u := fun hh => hu hh.symm
      simp [addToUserConns, lookupConns, hu, h2]
  | cons p ps ih =>
    by_cases hp : p.1 = uid
    · by_cases hu : u = uid
      · subst hu
        simp [addToUserConns, lookupConns, hp]
      · have huu : ¬ uid = u := fun hh => hu hh.symm
        simp [addToUserConns, lookupConns, hp, hu, huu]
    · by_cases hpu : p.1 = u
      · have hu : ¬ u = uid := fun hh => hp (hpu.trans hh)
        simp [addToUserConns, lookupConns, hp, hpu, hu]
      · simp [addToUserConns, lookupConns, hp, hpu, ih]

/-- Registering a connection raises the total connection count by one. -/
theorem total_addToUserConns (l : List (String × List SSEConnection))
    (uid : String) (c : SSEConnection) :
    totalConnections (addToUserConns l uid c) = totalConnections l + 1 := by
  induction l with
  | nil => simp [addToUserConns, totalConnections]
  | cons p ps ih =>
    by_cases hp : p.1 = uid
    · simp [addToUserConns, totalConnections, hp]
      omega
    · simp [addToUserConns, totalConnections, hp, ih]
      omega

/-- C9.  For GET /notifications/stream: a missing user_id yields HTTP 400
with body "user_id is required" and no state change; at or above the
connection cap the response is HTTP 503 carrying AddConnection's error
"max connections reached: cap" with the registry untouched, so every
already-registered connection stays; below the cap the stream is opened, the
total count grows by one and every previously registered connection of every
user is still registered. -/
theorem handleStream_contract (m : SSEManager) (uid : String) :
    (uid = "" → handleStream m uid = (.badRequest "user_id is required", m)) ∧
      (uid ≠ "" → m.maxConns ≤ totalConnections m.connections →
        handleStream m uid =
          (.serviceUnavailable ("max connections reached: " ++ toString m.maxConns),
            m)) ∧
      (uid ≠ "" → totalConnections m.connections < m.maxConns →
        ∃ m', handleStream m uid = (.streamOpened, m') ∧
          totalConnections m'.connections = totalConnections m.connections + 1 ∧
          ∀ u c, c ∈ lookupConns m.connections u → c ∈ lookupConns m'.connections u) := by
  refine ⟨fun h => by simp [handleStream, h], fun h hcap => ?_, fun h hlt => ?_⟩
  · simp [handleStream, h, AddConnection, hcap]
  · have hcap : ¬ m.maxConns ≤ totalConnections m.connections := by omega
    refine ⟨{ m with connections :=
        addToUserConns m.connections uid { userID := uid } }, ?_, ?_, ?_⟩
    · simp [handleStream, h, AddConnection, hcap]
    · simpa using total_addToUserConns m.connections uid { userID := uid }
    · intro u c hc
      rw [lookup_addToUserConns]
      by_cases hu : u = uid
      · subst hu
        simp
        exact Or.inl hc
      · simpa [hu] using hc

/-- C9 witness: the contract applied at the cap — the request for user "u"
is refused with the max-connections error and the registered connection of
user "a" is untouched. -/
theorem handleStream_contract_witness :
    ("u" ≠ "" ∧ c9Mgr.maxConns ≤ totalConnections c9Mgr.connections) ∧
      handleStream c9Mgr "u" =
        (.serviceUnavailable ("max connections reached: " ++ toString c9Mgr.maxConns),
          c9Mgr) :=
  ⟨⟨by decide, by decide⟩,
    (handleStream_contract c9Mgr "u").2.1 (by decide) (by decide)⟩

/-- C8 counterexample.  The claim says Send returns a failure when every sink
refused the frame.  The code returns success whenever the user has at least
one registered sink: on a registry where the user's only sink has a full
queue, Send drops the frame (the state is unchanged) and still returns
success. -/
theorem send_ok_though_every_sink_refused :
    Send c8Mgr "u1" "d" = .ok c8Mgr ∧
      lookupConns c8Mgr.connections "u1" ≠ [] ∧
      ∀ c ∈ lookupConns c8Mgr.connections "u1",
        sseQueueCapacity ≤ c.clientQueue.length :=
  ⟨rfl, by decide, by decide⟩

/-- A non-blocking offer never pushes a queue past its capacity. -/
theorem offerFrame_length_le (c : SSEConnection) (frame : String)
    (h : c.clientQueue.length ≤ sseQueueCapacity) :
    (offerFrame c frame).clientQueue.length ≤ sseQueueCapacity := by
  unfold offerFrame
  split
  · simpa using ‹c.clientQueue.length < sseQueueCapacity›
  · exact h

/-- Send on a user with at least one sink: success, each of the user's
queues offered the frame non-blockingly. -/
theorem send_eq_ok (m : SSEManager) (uid data : String)
    (hl : ¬ lookupConns m.connections uid = []) :
    Send m uid data = .ok { m with connections := m.connections.map fun p =>
      if p.1 = uid then (p.1, p.2.map fun c => offerFrame c (sseFrame data))
      else p } := by
  unfold Send
  rw [if_neg hl]

/-- Send on a user with no sinks: the no-recipient error. -/
theorem send_eq_error (m : SSEManager) (uid data : String)
    (hl : lookupConns m.connections uid = []) :
    Send m uid data = .error ("no active connections for user: " ++ uid) := by
  unfold Send
  rw [if_pos hl]

/-- C8 amended.  Send returns the no-recipient error exactly when the user
has no registered sinks; with at least one sink it succeeds regardless of
how many sinks accepted the frame (a full queue drops it).  The offer is
non-blocking drop-newest: if no queue exceeded its 100-frame capacity before
the call, none does after. -/
theorem send_contract (m : SSEManager) (uid data : String) :
    ((∃ m', Send m uid data = .ok m') ↔ lookupConns m.connections uid ≠ []) ∧
      (lookupConns m.connections uid = [] →
        Send m uid data = .error ("no active connections for user: " ++ uid)) ∧
      ((∀ p ∈ m.connections, ∀ c ∈ p.2, c.clientQueue.length ≤ sseQueueCapacity) →
        ∀ m', Send m uid data = .ok m' →
          ∀ p ∈ m'.connections, ∀ c ∈ p.2,
            c.clientQueue.length ≤ sseQueueCapacity) := by
  refine ⟨⟨fun hex hl => ?_, fun hl => ?_⟩, fun hl => send_eq_error m uid data hl,
    fun hb m' hok p hp c hc => ?_⟩
  · obtain ⟨m', hm'⟩ := hex
    rw [send_eq_error m uid data hl] at hm'
    exact Except.noConfusion hm'
  · exact ⟨_, send_eq_ok m uid data hl⟩
  · by_cases hl : lookupConns m.connections uid = []
    · rw [send_eq_error m uid data hl] at hok
      exact Except.noConfusion hok
    · rw [send_eq_ok m uid data hl] at hok
      cases hok
      rw [List.mem_map] at hp
      obtain ⟨p0, hp0, hfp⟩ := hp
      by_cases hpu : p0.1 = uid
      · rw [if_pos hpu] at hfp
        subst hfp
        rw [List.mem_map] at hc
        obtain ⟨c0, hc0, hcoff⟩ := hc
        exact hcoff ▸ offerFrame_length_le c0 _ (hb p0 hp0 c0 hc0)
      · rw [if_neg hpu] at hfp
        subst hfp
        exact hb p0 hp0 c hc

/-- C8 witness: the contract applied to a concrete registry — queues were
within capacity before the call and still are after it succeeds. -/
theorem send_contract_witness :
    (∀ p ∈ w8Mgr.connections, ∀ c ∈ p.2,
        c.clientQueue.length ≤ sseQueueCapacity) ∧
      ∀ p ∈ w8Mgr'.connections, ∀ c ∈ p.2,
        c.clientQueue.length ≤ sseQueueCapacity :=
  ⟨by decide,
    (send_contract w8Mgr "u1" "d").2.2 (by decide) w8Mgr' rfl⟩

/-- Status normalization does not change a row's primary key. -/
theorem normalizeStatus_id (n : NotificationRow) :
    (normalizeStatus n).notification_id = n.notification_id := rfl

/-- A single insert fails exactly on a primary-key collision. -/
theorem insertNotificationRow_eq_none (tbl : List NotificationRow)
    (n : NotificationRow) :
    insertNotificationRow tbl n = none ↔ hasId tbl n.notification_id = true := by
  unfold insertNotificationRow
  split <;> simp_all

/-- A successful single insert appends the (status-normalized) row, and the
id was fresh. -/
theorem insertNotificationRow_eq_some (tbl tbl' : List NotificationRow)
    (n : NotificationRow) (h : insertNotificationRow tbl n = some tbl') :
    tbl' = tbl ++ [normalizeStatus n] ∧ hasId tbl n.notification_id = false := by
  unfold insertNotificationRow at h
  split at h
  · exact Option.noConfusion h
  · exact ⟨(Option.some.inj h).symm, by simp_all⟩

/-- A key is present in an appended table iff it is present in either part. -/
theorem hasId_append (t1 t2 : List NotificationRow) (i : Nat) :
    hasId (t1 ++ t2) i = (hasId t1 i || hasId t2 i) := by
  simp [hasId, List.any_append]

/-- BatchInsert on a one-row list is exactly one insert attempt. -/
theorem BatchInsert_singleton (tbl : List NotificationRow) (n : NotificationRow) :
    BatchInsert tbl [n] = insertNotificationRow tbl n := by
  cases h : insertNotificationRow tbl n <;> simp [BatchInsert, h]

/-- Flush step when the row inserts successfully. -/
theorem flushBatch_cons_ok (tbl tbl' : List NotificationRow)
    (n : NotificationRow) (ns : List NotificationRow)
    (h : insertNotificationRow tbl n = some tbl') :
    flushBatch tbl (n :: ns) = flushBatch tbl' ns := by
  simp [flushBatch, BatchInsert_singleton, h]

/-- Flush step when the row's insert fails: the row is skipped and its id
logged. -/
theorem flushBatch_cons_fail (tbl : List NotificationRow)
    (n : NotificationRow) (ns : List NotificationRow)
    (h : insertNotificationRow tbl n = none) :
    flushBatch tbl (n :: ns) =
      ((flushBatch tbl ns).1, n.notification_id :: (flushBatch tbl ns).2) := by
  simp [flushBatch, BatchInsert_singleton, h]

/-- A flush only appends rows: the resulting table is the old table followed
by a sublist of the status-normalized batch (the rows whose individual
inserts succeeded). -/
theorem flushBatch_extends (ns : List NotificationRow) :
    ∀ tbl : List NotificationRow,
      ∃ l, List.Sublist l (ns.map normalizeStatus) ∧
        (flushBatch tbl ns).1 = tbl ++ l := by
  induction ns with
  | nil => exact fun tbl => ⟨[], List.nil_sublist _, by simp [flushBatch]⟩
  | cons n ns ih =>
    intro tbl
    cases h : insertNotificationRow tbl n with
    | none =>
      obtain ⟨l, hsub, heq⟩ := ih tbl
      exact ⟨l, hsub.cons _, by rw [flushBatch_cons_fail tbl n ns h]; exact heq⟩
    | some tbl' =>
      obtain ⟨heq', _⟩ := insertNotificationRow_eq_some tbl tbl' n h
      obtain ⟨l, hsub, heq⟩ := ih tbl'
      refine ⟨normalizeStatus n :: l, hsub.cons₂ _, ?_⟩
      rw [flushBatch_cons_ok tbl tbl' n ns h, heq, heq']
      simp

/-- Rows present before a flush are still present after it. -/
theorem flushBatch_mem_mono (ns : List NotificationRow)
    (tbl : List NotificationRow) (r : NotificationRow) (hr : r ∈ tbl) :
    r ∈ (flushBatch tbl ns).1 := by
  obtain ⟨l, _, heq⟩ := flushBatch_extends ns tbl
  rw [heq]
  exact List.mem_append_left _ hr

/-- A key already present in the table stays present through a flush. -/
theorem flushBatch_hasId_mono (ns : List NotificationRow)
    (tbl : List NotificationRow) (i : Nat) (h : hasId tbl i = true) :
    hasId (flushBatch tbl ns).1 i = true := by
  obtain ⟨l, _, heq⟩ := flushBatch_extends ns tbl
  rw [heq, hasId_append, h]
  rfl

/-- A row whose id already exists in the table is never added by a flush. -/
theorem flushBatch_never_adds_dup (ns : List NotificationRow) :
    ∀ tbl : List NotificationRow, ∀ n : NotificationRow,
      hasId tbl n.notification_id = true → n ∉ tbl →
        n ∉ (flushBatch tbl ns).1 := by
  induction ns with
  | nil => intro tbl n _ hmem; simpa [flushBatch] using hmem
  | cons b bs ih =>
    intro tbl n hid hmem
    cases h : insertNotificationRow tbl b with
    | none =>
      rw [flushBatch_cons_fail tbl b bs h]
      exact ih tbl n hid hmem
    | some tbl' =>
      obtain ⟨heq', hfresh⟩ := insertNotificationRow_eq_some tbl tbl' b h
      rw [flushBatch_cons_ok tbl tbl' b bs h]
      refine ih tbl' n ?_ ?_
      · rw [heq', hasId_append, hid]; rfl
      · rw [heq']
        intro hmem'
        rcases List.mem_append.mp hmem' with h1 | h2
        · exact hmem h1
        · rw [List.mem_singleton] at h2
          subst h2
          rw [normalizeStatus_id] at hid
          rw [hid] at hfresh
          exact Bool.noConfusion hfresh

/-- C6.  In the Ingestor's flush each buffered row is written by its own
one-row insert, so a row failing validation (duplicate id) is dropped and
logged while every other row of the same batch still becomes visible: a row
of the batch whose id is fresh and unique is in the table after the flush
regardless of any bad rows around it, and a duplicate row is not inserted
and its id is logged. -/
theorem flushBatch_soft_error_per_row (tbl batch : List NotificationRow)
    (n : NotificationRow) (hmem : n ∈ batch) :
    (hasId tbl n.notification_id = false →
      (∀ m ∈ batch, m.notification_id = n.notification_id → m = n) →
      normalizeStatus n ∈ (flushBatch tbl batch).1) ∧
    (hasId tbl n.notification_id = true → n ∉ tbl →
      n ∉ (flushBatch tbl batch).1 ∧
        n.notification_id ∈ (flushBatch tbl batch).2) := by
  constructor
  · induction batch generalizing tbl with
    | nil => exact absurd hmem (List.not_mem_nil n)
    | cons b bs ih =>
      intro hid huniq
      by_cases hbn : b = n
      · subst hbn
        cases h : insertNotificationRow tbl b with
        | none =>
          rw [insertNotificationRow_eq_none] at h
          rw [h] at hid
          exact Bool.noConfusion hid
        | some tbl' =>
          obtain ⟨heq', _⟩ := insertNotificationRow_eq_some tbl tbl' b h
          rw [flushBatch_cons_ok tbl tbl' b bs h]
          refine flushBatch_mem_mono bs tbl' (normalizeStatus b) ?_
          rw [heq']
          exact List.mem_append_right _ (List.mem_singleton.mpr rfl)
      · have hmem' : n ∈ bs := by
          rcases List.mem_cons.mp hmem with h1 | h2
          · exact absurd h1.symm hbn
          · exact h2
        have hbid : b.notification_id ≠ n.notification_id := fun hh =>
          hbn (huniq b (List.mem_cons_self b bs) hh)
        have huniq' : ∀ m ∈ bs, m.notification_id = n.notification_id → m = n :=
          fun m hm => huniq m (List.mem_cons_of_mem b hm)
        cases h : insertNotificationRow tbl b with
        | none =>
          rw [flushBatch_cons_fail tbl b bs h]
          exact ih tbl hmem' hid huniq'
        | some tbl' =>
          obtain ⟨heq', _⟩ := insertNotificationRow_eq_some tbl tbl' b h
          rw [flushBatch_cons_ok tbl tbl' b bs h]
          refine ih tbl' hmem' ?_ huniq'
          rw [heq', hasId_append, hid]
          simp [hasId, normalizeStatus_id, hbid]
  · induction batch generalizing tbl with
    | nil => exact absurd hmem (List.not_mem_nil n)
    | cons b bs ih =>
      intro hid hmemtbl
      by_cases hbn : b = n
      · subst hbn
        have h : insertNotificationRow tbl b = none :=
          (insertNotificationRow_eq_none tbl b).mpr hid
        rw [flushBatch_cons_fail tbl b bs h]
        refine ⟨flushBatch_never_adds_dup bs tbl b hid hmemtbl, ?_⟩
        exact List.mem_cons_self _ _
      · have hmem' : n ∈ bs := by
          rcases List.mem_cons.mp hmem with h1 | h2
          · exact absurd h1.symm hbn
          · exact h2
        cases h : insertNotificationRow tbl b with
        | none =>
          rw [flushBatch_cons_fail tbl b bs h]
          obtain ⟨ha, hb⟩ := ih tbl hmem' hid hmemtbl
          exact ⟨ha, List.mem_cons_of_mem _ hb⟩
        | some tbl' =>
          obtain ⟨heq', hfresh⟩ := insertNotificationRow_eq_some tbl tbl' b h
          rw [flushBatch_cons_ok tbl tbl' b bs h]
          refine ih tbl' hmem' ?_ ?_
          · rw [heq', hasId_append, hid]; rfl
          · rw [heq']
            intro hmem2
            rcases List.mem_append.mp hmem2 with h1 | h2
            · exact hmemtbl h1
            · rw [List.mem_singleton] at h2
              subst h2
              rw [normalizeStatus_id] at hid
              rw [hid] at hfresh
              exact Bool.noConfusion hfresh

/-- C6 witness: the per-row soft-error theorem applied to a concrete flush of
a duplicate row followed by a fresh row — the fresh row is visible after the
flush. -/
theorem flushBatch_soft_error_witness :
    (w6Good ∈ [w6Bad, w6Good] ∧ hasId [w6Old] w6Good.notification_id = false) ∧
      normalizeStatus w6Good ∈ (flushBatch [w6Old] [w6Bad, w6Good]).1 :=
  ⟨⟨by decide, by decide⟩,
    (flushBatch_soft_error_per_row [w6Old] [w6Bad, w6Good] w6Good
      (by decide)).1 (by decide) (by decide)⟩

/-- C7 counterexample.  The claim says each flush is one atomic insert:
afterwards either every row of the batch is visible or none is.  Flushing
the batch [w6Bad, w6Good] against a store already holding w6Old (same id as
w6Bad) leaves w6Good visible and w6Bad invisible — neither all nor none. -/
theorem flushBatch_not_atomic :
    (flushBatch [w6Old] [w6Bad, w6Good]).1 = [w6Old, w6Good] ∧
      w6Good ∈ (flushBatch [w6Old] [w6Bad, w6Good]).1 ∧
      w6Bad ∉ (flushBatch [w6Old] [w6Bad, w6Good]).1 ∧
      ¬ ((∀ m ∈ [w6Bad, w6Good], m ∈ (flushBatch [w6Old] [w6Bad, w6Good]).1) ∨
         ∀ m ∈ [w6Bad, w6Good], m ∉ (flushBatch [w6Old] [w6Bad, w6Good]).1) := by
  decide

/-- C7 amended.  The Ingestor's flush commits each buffered notification in
its own single-row transaction (Insert), not the batch as one transaction:
after a flush the store is the old table extended by exactly the sublist of
the (status-normalized) batch whose individual inserts succeeded, so a flush
can leave part of the batch visible.  Rows are only ever appended; nothing
already visible is lost. -/
theorem flushBatch_per_row_transactions (tbl batch : List NotificationRow) :
    ∃ l, List.Sublist l (batch.map normalizeStatus) ∧
      (flushBatch tbl batch).1 = tbl ++ l :=
  flushBatch_extends batch tbl

/-- After one status update, the targeted row (any row carrying the update's
id) has no owner and no lease. -/
theorem applyStatusUpdate_clears_target (now : Int)
    (tbl : List NotificationRow) (u : StatusUpdate) :
    ∀ r ∈ applyStatusUpdate now tbl u, r.notification_id = u.NotificationID →
      r.instance_id = none ∧ r.lease_timeout = none := by
  intro r hr hid
  rw [applyStatusUpdate, List.mem_map] at hr
  obtain ⟨r0, hr0, hfr⟩ := hr
  by_cases h0 : r0.notification_id = u.NotificationID
  · rw [if_pos h0] at hfr
    subst hfr
    exact ⟨rfl, rfl⟩
  · rw [if_neg h0] at hfr
    subst hfr
    exact absurd hid h0

/-- One status update preserves "every row with this id is owner- and
lease-free": it either rewrites a row to an owner-free one or leaves it
alone. -/
theorem applyStatusUpdate_keeps_clear (now : Int)
    (tbl : List NotificationRow) (v : StatusUpdate) (i : Nat)
    (h : ∀ r ∈ tbl, r.notification_id = i →
      r.instance_id = none ∧ r.lease_timeout = none) :
    ∀ r ∈ applyStatusUpdate now tbl v, r.notification_id = i →
      r.instance_id = none ∧ r.lease_timeout = none := by
  intro r hr hid
  rw [applyStatusUpdate, List.mem_map] at hr
  obtain ⟨r0, hr0, hfr⟩ := hr
  by_cases h0 : r0.notification_id = v.NotificationID
  · rw [if_pos h0] at hfr
    subst hfr
    exact ⟨rfl, rfl⟩
  · rw [if_neg h0] at hfr
    subst hfr
    exact h r0 hr0 hid

/-- The whole update batch preserves "every row with this id is owner- and
lease-free". -/
theorem batchUpdateStatus_keeps_clear (now : Int) (updates : List StatusUpdate)
    (i : Nat) :
    ∀ tbl : List NotificationRow,
      (∀ r ∈ tbl, r.notification_id = i →
        r.instance_id = none ∧ r.lease_timeout = none) →
      ∀ r ∈ BatchUpdateStatus now tbl updates, r.notification_id = i →
        r.instance_id = none ∧ r.lease_timeout = none := by
  induction updates with
  | nil => intro tbl h; exact h
  | cons v vs ih =>
    intro tbl h
    exact ih (applyStatusUpdate now tbl v)
      (applyStatusUpdate_keeps_clear now tbl v i h)

/-- C10.  Every update processed by BatchUpdateStatus — pushed and failed
alike — sets the affected row's `instance_id` and `lease_timeout` to NULL:
after the batch, every row carrying the id of any update in the batch has
neither an owner nor a lease. -/
theorem batchUpdateStatus_clears_owner_and_lease (now : Int)
    (tbl : List NotificationRow) (updates : List StatusUpdate)
    (u : StatusUpdate) (hu : u ∈ updates) :
    ∀ r ∈ BatchUpdateStatus now tbl updates,
      r.notification_id = u.NotificationID →
        r.instance_id = none ∧ r.lease_timeout = none := by
  induction updates generalizing tbl with
  | nil => exact absurd hu (List.not_mem_nil u)
  | cons v vs ih =>
    rcases List.mem_cons.mp hu with h1 | h2
    · subst h1
      exact batchUpdateStatus_keeps_clear now vs u.NotificationID
        (applyStatusUpdate now tbl u)
        (applyStatusUpdate_clears_target now tbl u)
    · exact ih (applyStatusUpdate now tbl v) h2

/-- C10 witness: the theorem applied to a concrete failed update — the
resulting row keeps neither owner nor lease. -/
theorem batchUpdateStatus_clears_witness :
    (w10Upd ∈ [w10Upd] ∧ w10Res ∈ BatchUpdateStatus 50 [w10Row] [w10Upd] ∧
        w10Res.notification_id = w10Upd.NotificationID) ∧
      w10Res.instance_id = none ∧ w10Res.lease_timeout = none :=
  ⟨⟨by decide, by decide, by decide⟩,
    batchUpdateStatus_clears_owner_and_lease 50 [w10Row] [w10Upd] w10Upd
      (by decide) w10Res (by decide) (by decide)⟩

end NotifSys
